import Mathlib

/-!
Verification of the Dev-Garden template scaffolder
(`scripts/` content-generation script embedded from the repository source).

The script walks a fixed list of problem descriptors, derives a slug and a
target path per descriptor, and writes a templated MDX document to that path
unless a file already exists there.  We shallowly embed the script:

* `slugify` models `title.toLowerCase().replace(/[^a-z0-9]+/g, '-').replace(/(^-|-$)/g, '')`;
* `generateProblemTemplate` models the template literal;
* the filesystem is a partial map `String → Option String`; `fs.existsSync`
  becomes `existsSync`, `fs.writeFileSync` becomes `writeFileSync`;
* the `problems.forEach` loop becomes `scaffold`, returning the final
  filesystem together with the ordered list of per-descriptor outcomes;
* `scaffoldE` additionally models a throwing `writeFileSync` (an `IOError`
  oracle) to capture the abort-on-first-write-failure behaviour.
-/

/-- A character kept verbatim by the slug regex `[^a-z0-9]+`:
lower-case ASCII letter or digit. -/
def isSlugChar (c : Char) : Bool :=
  ('a' ≤ c && c ≤ 'z') || ('0' ≤ c && c ≤ '9')

/-- Model of `.replace(/[^a-z0-9]+/g, '-')`: each maximal run of characters
outside `[a-z0-9]` is replaced by a single hyphen.  The boolean flag records
whether we are inside a run whose hyphen has already been emitted. -/
def collapseRuns : Bool → List Char → List Char
  | _, [] => []
  | inRun, c :: cs =>
    if isSlugChar c then c :: collapseRuns false cs
    else if inRun then collapseRuns true cs
    else '-' :: collapseRuns true cs

/-- Model of `.replace(/(^-|-$)/g, '')`: the anchored alternatives remove at
most one leading and one trailing hyphen. -/
def stripEdges (l : List Char) : List Char :=
  let l1 := if l.head? = some '-' then l.tail else l
  if l1.getLast? = some '-' then l1.dropLast else l1

/-- The source's `slugify`:
`title.toLowerCase().replace(/[^a-z0-9]+/g, '-').replace(/(^-|-$)/g, '')`. -/
def slugify (title : String) : String :=
  String.mk (stripEdges (collapseRuns false (title.data.map Char.toLower)))

/-- Modelled from the spec's words: strip ALL leading and trailing hyphens
(`leading/trailing hyphens stripped`). -/
def stripEdgesSpec (l : List Char) : List Char :=
  ((l.dropWhile (fun c => c == '-')).reverse.dropWhile (fun c => c == '-')).reverse

/-- Modelled from the spec's words: `lower-cased, every maximal run of
characters outside [a-z0-9] collapsed to a single hyphen, leading/trailing
hyphens stripped`. -/
def slugifySpec (title : String) : String :=
  String.mk (stripEdgesSpec (collapseRuns false (title.data.map Char.toLower)))

lemma isSlugChar_ne_hyphen {c : Char} (h : isSlugChar c = true) : c ≠ '-' := by
  intro he
  subst he
  exact absurd h (by decide)

lemma collapseRuns_true_head (cs : List Char) :
    (collapseRuns true cs).head? ≠ some '-' := by
  induction cs with
  | nil => simp [collapseRuns]
  | cons c cs ih =>
    cases hc : isSlugChar c with
    | true =>
      simp only [collapseRuns, hc, if_true, List.head?_cons, ne_eq, Option.some.injEq]
      exact isSlugChar_ne_hyphen hc
    | false =>
      simpa [collapseRuns, hc] using ih

lemma collapseRuns_chain (cs : List Char) (b : Bool) :
    List.Chain' (fun x y => ¬(x = '-' ∧ y = '-')) (collapseRuns b cs) := by
  induction cs generalizing b with
  | nil => simp [collapseRuns]
  | cons c cs ih =>
    cases hc : isSlugChar c with
    | true =>
      simp only [collapseRuns, hc, if_true]
      rw [List.chain'_cons']
      refine ⟨fun y _ hxy => isSlugChar_ne_hyphen hc hxy.1, ih false⟩
    | false =>
      cases b with
      | true => simpa [collapseRuns, hc] using ih true
      | false =>
        simp only [collapseRuns, hc, if_false, Bool.false_eq_true, ite_false]
        rw [List.chain'_cons']
        refine ⟨fun y hy hxy => ?_, ih true⟩
        exact collapseRuns_true_head cs (by simpa [hxy.2] using hy)

lemma dropWhile_of_head_ne {l : List Char} (h : l.head? ≠ some '-') :
    l.dropWhile (fun c => c == '-') = l := by
  cases l with
  | nil => rfl
  | cons a t =>
    have ha : (a == '-') = false := by
      simp only [List.head?_cons, ne_eq, Option.some.injEq] at h
      simpa using h
    simp [List.dropWhile_cons, ha]

lemma dropWhile_hyphen_of_chain {l : List Char}
    (h : List.Chain' (fun x y => ¬(x = '-' ∧ y = '-')) l) :
    l.dropWhile (fun c => c == '-') = if l.head? = some '-' then l.tail else l := by
  cases l with
  | nil => rfl
  | cons a t =>
    rw [List.chain'_cons'] at h
    cases ha : (a == '-') with
    | false =>
      have ha' : ¬(a = '-') := by simpa using ha
      simp [List.dropWhile_cons, ha, ha']
    | true =>
      have ha' : a = '-' := by simpa using ha
      have ht : t.head? ≠ some '-' := by
        intro hh
        exact h.1 '-' (by simpa using hh) ⟨ha', rfl⟩
      simp [List.dropWhile_cons, ha, ha', dropWhile_of_head_ne ht]

lemma reverse_tail_reverse (l : List Char) :
    (l.reverse.tail).reverse = l.dropLast := by
  induction l using List.reverseRecOn with
  | nil => rfl
  | append_singleton xs x _ =>
    simp [List.reverse_append, List.dropLast_concat]

lemma stripEdgesSpec_eq_stripEdges {l : List Char}
    (h : List.Chain' (fun x y => ¬(x = '-' ∧ y = '-')) l) :
    stripEdgesSpec l = stripEdges l := by
  unfold stripEdgesSpec stripEdges
  rw [dropWhile_hyphen_of_chain h]
  set l1 := if l.head? = some '-' then l.tail else l with hl1
  have h1 : List.Chain' (fun x y => ¬(x = '-' ∧ y = '-')) l1 := by
    rw [hl1]
    split
    · exact h.tail
    · exact h
  have h1r : List.Chain' (fun x y => ¬(x = '-' ∧ y = '-')) l1.reverse := by
    rw [List.chain'_reverse]
    exact h1.imp (fun a b hab hba => hab ⟨hba.2, hba.1⟩)
  rw [dropWhile_hyphen_of_chain h1r, List.head?_reverse]
  show (if l1.getLast? = some '-' then l1.reverse.tail else l1.reverse).reverse
      = if l1.getLast? = some '-' then l1.dropLast else l1
  by_cases hg : l1.getLast? = some '-'
  · simp [hg, reverse_tail_reverse]
  · simp [hg]

/-- A problem descriptor, one entry of the script's `problems` table.
`difficulty` is a plain string in the source (`'Easy' | 'Medium' | 'Hard'`). -/
structure Problem where
  folder : String
  position : Nat
  title : String
  difficulty : String
  tags : List String
deriving DecidableEq

/-- The script's `problems` table (the LeetCode 75 study plan). -/
def problems : List Problem := [
  ⟨"array-string", 1, "Merge Strings Alternately", "Easy", ["Array", "Two Pointers", "String"]⟩,
  ⟨"array-string", 2, "Greatest Common Divisor of Strings", "Easy", ["Math", "String"]⟩,
  ⟨"array-string", 3, "Kids With the Greatest Number of Candies", "Easy", ["Array"]⟩,
  ⟨"array-string", 4, "Can Place Flowers", "Easy", ["Array", "Greedy"]⟩,
  ⟨"array-string", 5, "Reverse Vowels of a String", "Easy", ["Two Pointers", "String"]⟩,
  ⟨"array-string", 6, "Reverse Words in a String", "Medium", ["Two Pointers", "String"]⟩,
  ⟨"array-string", 7, "Product of Array Except Self", "Medium", ["Array", "Prefix Sum"]⟩,
  ⟨"array-string", 8, "Increasing Triplet Subsequence", "Medium", ["Array", "Greedy"]⟩,
  ⟨"array-string", 9, "String Compression", "Medium", ["Two Pointers", "String"]⟩,
  ⟨"two-pointers", 1, "Move Zeroes", "Easy", ["Array", "Two Pointers"]⟩,
  ⟨"two-pointers", 2, "Is Subsequence", "Easy", ["Two Pointers", "String", "Dynamic Programming"]⟩,
  ⟨"two-pointers", 3, "Container With Most Water", "Medium", ["Array", "Two Pointers", "Greedy"]⟩,
  ⟨"two-pointers", 4, "Max Number of K-Sum Pairs", "Medium", ["Array", "Hash Table", "Two Pointers", "Sorting"]⟩,
  ⟨"sliding-window", 1, "Maximum Average Subarray I", "Easy", ["Array", "Sliding Window"]⟩,
  ⟨"sliding-window", 2, "Maximum Number of Vowels in a Substring of Given Length", "Medium", ["String", "Sliding Window"]⟩,
  ⟨"sliding-window", 3, "Max Consecutive Ones III", "Medium", ["Array", "Binary Search", "Sliding Window", "Prefix Sum"]⟩,
  ⟨"sliding-window", 4, "Longest Subarray of 1\x27s After Deleting One Element", "Medium", ["Array", "Dynamic Programming", "Sliding Window"]⟩,
  ⟨"prefix-sum", 1, "Find the Highest Altitude", "Easy", ["Array", "Prefix Sum"]⟩,
  ⟨"prefix-sum", 2, "Find Pivot Index", "Easy", ["Array", "Prefix Sum"]⟩,
  ⟨"hash-map-set", 1, "Find the Difference of Two Arrays", "Easy", ["Array", "Hash Table"]⟩,
  ⟨"hash-map-set", 2, "Unique Number of Occurrences", "Easy", ["Array", "Hash Table"]⟩,
  ⟨"hash-map-set", 3, "Determine if Two Strings Are Close", "Medium", ["Hash Table", "String", "Sorting"]⟩,
  ⟨"hash-map-set", 4, "Equal Row and Column Pairs", "Medium", ["Array", "Hash Table", "Matrix", "Simulation"]⟩,
  ⟨"stack", 1, "Removing Stars From a String", "Medium", ["String", "Stack", "Simulation"]⟩,
  ⟨"stack", 2, "Asteroid Collision", "Medium", ["Array", "Stack", "Simulation"]⟩,
  ⟨"stack", 3, "Decode String", "Medium", ["String", "Stack", "Recursion"]⟩,
  ⟨"queue", 1, "Number of Recent Calls", "Easy", ["Design", "Queue", "Data Stream"]⟩,
  ⟨"queue", 2, "Dota2 Senate", "Medium", ["String", "Greedy", "Queue"]⟩,
  ⟨"linked-list", 1, "Delete the Middle Node of a Linked List", "Medium", ["Linked List", "Two Pointers"]⟩,
  ⟨"linked-list", 2, "Odd Even Linked List", "Medium", ["Linked List"]⟩,
  ⟨"linked-list", 3, "Reverse Linked List", "Easy", ["Linked List", "Recursion"]⟩,
  ⟨"linked-list", 4, "Maximum Twin Sum of a Linked List", "Medium", ["Linked List", "Two Pointers", "Stack"]⟩,
  ⟨"binary-tree-dfs", 1, "Maximum Depth of Binary Tree", "Easy", ["Tree", "Depth-First Search", "Breadth-First Search", "Binary Tree"]⟩,
  ⟨"binary-tree-dfs", 2, "Leaf-Similar Trees", "Easy", ["Tree", "Depth-First Search", "Binary Tree"]⟩,
  ⟨"binary-tree-dfs", 3, "Count Good Nodes in Binary Tree", "Medium", ["Tree", "Depth-First Search", "Breadth-First Search", "Binary Tree"]⟩,
  ⟨"binary-tree-dfs", 4, "Path Sum III", "Medium", ["Tree", "Depth-First Search", "Binary Tree"]⟩,
  ⟨"binary-tree-dfs", 5, "Longest ZigZag Path in a Binary Tree", "Medium", ["Dynamic Programming", "Tree", "Depth-First Search", "Binary Tree"]⟩,
  ⟨"binary-tree-dfs", 6, "Lowest Common Ancestor of a Binary Tree", "Medium", ["Tree", "Depth-First Search", "Binary Tree"]⟩,
  ⟨"binary-tree-bfs", 1, "Binary Tree Right Side View", "Medium", ["Tree", "Depth-First Search", "Breadth-First Search", "Binary Tree"]⟩,
  ⟨"binary-tree-bfs", 2, "Maximum Level Sum of a Binary Tree", "Medium", ["Tree", "Depth-First Search", "Breadth-First Search", "Binary Tree"]⟩,
  ⟨"binary-search-tree", 1, "Search in a Binary Search Tree", "Easy", ["Tree", "Binary Search Tree", "Binary Tree"]⟩,
  ⟨"binary-search-tree", 2, "Delete Node in a BST", "Medium", ["Tree", "Binary Search Tree", "Binary Tree"]⟩,
  ⟨"graphs-dfs", 1, "Keys and Rooms", "Medium", ["Depth-First Search", "Breadth-First Search", "Graph"]⟩,
  ⟨"graphs-dfs", 2, "Number of Provinces", "Medium", ["Depth-First Search", "Breadth-First Search", "Union Find", "Graph"]⟩,
  ⟨"graphs-dfs", 3, "Reorder Routes to Make All Paths Lead to the City Zero", "Medium", ["Depth-First Search", "Breadth-First Search", "Graph"]⟩,
  ⟨"graphs-dfs", 4, "Evaluate Division", "Medium", ["Array", "Depth-First Search", "Breadth-First Search", "Union Find", "Graph", "Shortest Path"]⟩,
  ⟨"graphs-bfs", 1, "Nearest Exit from Entrance in Maze", "Medium", ["Array", "Breadth-First Search", "Matrix"]⟩,
  ⟨"graphs-bfs", 2, "Rotting Oranges", "Medium", ["Array", "Breadth-First Search", "Matrix"]⟩,
  ⟨"heap-priority-queue", 1, "Kth Largest Element in an Array", "Medium", ["Array", "Divide and Conquer", "Sorting", "Heap (Priority Queue)", "Quickselect"]⟩,
  ⟨"heap-priority-queue", 2, "Smallest Number in Infinite Set", "Medium", ["Hash Table", "Design", "Heap (Priority Queue)"]⟩,
  ⟨"heap-priority-queue", 3, "Maximum Subsequence Score", "Medium", ["Array", "Greedy", "Sorting", "Heap (Priority Queue)"]⟩,
  ⟨"heap-priority-queue", 4, "Total Cost to Hire K Workers", "Medium", ["Array", "Two Pointers", "Simulation", "Heap (Priority Queue)"]⟩,
  ⟨"binary-search", 1, "Guess Number Higher or Lower", "Easy", ["Binary Search", "Interactive"]⟩,
  ⟨"binary-search", 2, "Successful Pairs of Spells and Potions", "Medium", ["Array", "Two Pointers", "Binary Search", "Sorting"]⟩,
  ⟨"binary-search", 3, "Find Peak Element", "Medium", ["Array", "Binary Search"]⟩,
  ⟨"binary-search", 4, "Koko Eating Bananas", "Medium", ["Array", "Binary Search"]⟩,
  ⟨"backtracking", 1, "Letter Combinations of a Phone Number", "Medium", ["Hash Table", "String", "Backtracking"]⟩,
  ⟨"backtracking", 2, "Combination Sum III", "Medium", ["Array", "Backtracking"]⟩,
  ⟨"dp-1d", 1, "N-th Tribonacci Number", "Easy", ["Math", "Dynamic Programming", "Memoization"]⟩,
  ⟨"dp-1d", 2, "Min Cost Climbing Stairs", "Easy", ["Array", "Dynamic Programming"]⟩,
  ⟨"dp-1d", 3, "House Robber", "Medium", ["Array", "Dynamic Programming"]⟩,
  ⟨"dp-1d", 4, "Domino and Tromino Tiling", "Medium", ["Dynamic Programming"]⟩,
  ⟨"dp-multidimensional", 1, "Unique Paths", "Medium", ["Math", "Dynamic Programming", "Combinatorics"]⟩,
  ⟨"dp-multidimensional", 2, "Longest Common Subsequence", "Medium", ["String", "Dynamic Programming"]⟩,
  ⟨"dp-multidimensional", 3, "Best Time to Buy and Sell Stock with Transaction Fee", "Medium", ["Array", "Dynamic Programming", "Greedy"]⟩,
  ⟨"dp-multidimensional", 4, "Edit Distance", "Medium", ["String", "Dynamic Programming"]⟩,
  ⟨"bit-manipulation", 1, "Counting Bits", "Easy", ["Dynamic Programming", "Bit Manipulation"]⟩,
  ⟨"bit-manipulation", 2, "Single Number", "Easy", ["Array", "Bit Manipulation"]⟩,
  ⟨"bit-manipulation", 3, "Minimum Flips to Make a OR b Equal to c", "Medium", ["Bit Manipulation"]⟩,
  ⟨"trie", 1, "Implement Trie (Prefix Tree)", "Medium", ["Hash Table", "String", "Design", "Trie"]⟩,
  ⟨"trie", 2, "Search Suggestions System", "Medium", ["Array", "String", "Trie", "Sorting", "Heap (Priority Queue)"]⟩,
  ⟨"intervals", 1, "Non-overlapping Intervals", "Medium", ["Array", "Dynamic Programming", "Greedy", "Sorting"]⟩,
  ⟨"intervals", 2, "Minimum Number of Arrows to Burst Balloons", "Medium", ["Array", "Greedy", "Sorting"]⟩,
  ⟨"monotonic-stack", 1, "Daily Temperatures", "Medium", ["Array", "Stack", "Monotonic Stack"]⟩,
  ⟨"monotonic-stack", 2, "Online Stock Span", "Medium", ["Stack", "Design", "Monotonic Stack", "Data Stream"]⟩]

/-- The serialized tag list `problem.tags.map(tag => `"$\x7btag\x7d"`).join(', ')`. -/
def tagsStringOf (problem : Problem) : String :=
  String.intercalate ", " (problem.tags.map (fun tag => "\"" ++ tag ++ "\""))

/-- The source's `generateProblemTemplate`: the template literal with
`position`, `title`, `tags`, `difficulty` and the slug interpolated.
The literal text is split at the interpolation points; parenthesised groups
mark the labelled fields the front-matter and body carry. -/
def generateProblemTemplate (problem : Problem) : String :=
  "---\n" ++ ("sidebar_position: " ++ toString problem.position) ++ "\n"
  ++ ("title: \"" ++ problem.title ++ "\"") ++ "\n"
  ++ ("tags: [" ++ tagsStringOf problem ++ "]") ++ "\n---\n\n# "
  ++ problem.title ++ "\n\n"
  ++ ("> **Difficulty:** " ++ problem.difficulty)
  ++ "\n\n[View on LeetCode](https://leetcode.com/problems/" ++ slugify problem.title
  ++ "/)\n\n***\n\n### Problem Statement\n\n_Add problem description here._\n\n***\n\n### Intuition\n\n_Explain the core idea behind your solution._\n\n***\n\n### Approach\n\n1. _Step 1 description_\n2. _Step 2 description_\n3. _Step 3 description_\n\n***\n\n### Complexity\n\n#### Time complexity: $O(N)$\n\n_Explain time complexity._\n\n#### Space complexity: $O(1)$\n\n_Explain space complexity._\n\n***\n\n### Code\n\n```javascript\n/**\n * Solution for " ++ problem.title
  ++ "\n */\nfunction solution() \x7b\n    // Your code here\n\x7d\n```\n\n***\n\n### Notes\n\n_Add any additional notes, edge cases, or alternative approaches here._\n"

/-- The filesystem, as a partial map from paths to file contents. -/
abbrev FS : Type := String → Option String

/-- Model of `fs.existsSync`: only presence is observable, never content. -/
def existsSync (fs : FS) (p : String) : Bool := (fs p).isSome

/-- Model of `fs.writeFileSync`: store `content` at path `p`. -/
def writeFileSync (fs : FS) (p content : String) : FS :=
  fun q => if q = p then some content else fs q

/-- POSIX `path.join` on simple relative components. -/
def joinPath (a b : String) : String := a ++ "/" ++ b

/-- `path.join(__dirname, '..', 'docs', 'leetcode-75', problem.folder)`,
with the normalized prefix abstracted as `baseDir`. -/
def docsPath (baseDir : String) (problem : Problem) : String :=
  joinPath baseDir problem.folder

/-- `path.join(docsPath, `$\x7bslug\x7d.mdx`)`. -/
def targetPath (baseDir : String) (problem : Problem) : String :=
  joinPath (docsPath baseDir problem) (slugify problem.title ++ ".mdx")

/-- A per-descriptor outcome of the run. -/
inductive Outcome where
  | created (path : String)
  | skipped (path : String)
deriving DecidableEq

/-- The path an outcome carries. -/
def Outcome.path : Outcome → String
  | created p => p
  | skipped p => p

/-- One iteration of `problems.forEach`: skip if the target exists,
otherwise render the template and write it. -/
def scaffoldStep (baseDir : String) (fs : FS) (problem : Problem) : FS × Outcome :=
  let filepath := targetPath baseDir problem
  if existsSync fs filepath then (fs, Outcome.skipped filepath)
  else (writeFileSync fs filepath (generateProblemTemplate problem), Outcome.created filepath)

/-- The whole `problems.forEach` loop: final filesystem plus the ordered
per-descriptor outcomes. -/
def scaffold (baseDir : String) (fs : FS) : List Problem → FS × List Outcome
  | [] => (fs, [])
  | p :: ps =>
    let r1 := scaffoldStep baseDir fs p
    let r2 := scaffold baseDir r1.1 ps
    (r2.1, r1.2 :: r2.2)

/-- The `console.log` line printed for one outcome. -/
def logLine : Outcome → String
  | Outcome.skipped p => "⏭️  Skipping (already exists): " ++ p
  | Outcome.created p => "✅ Created: " ++ p

/-- The final `console.log` message. -/
def finalMessage : String := "\n🎉 All LeetCode 75 problem files generated!"

/-- Everything the run prints to standard output, in order. -/
def runLog (baseDir : String) (fs : FS) (l : List Problem) : List String :=
  ((scaffold baseDir fs l).2.map logLine) ++ [finalMessage]

/-- Number of `created` outcomes in a report. -/
def createdCount (os : List Outcome) : Nat :=
  os.countP fun o => match o with | Outcome.created _ => true | Outcome.skipped _ => false

/-- Number of `skipped` outcomes in a report. -/
def skippedCount (os : List Outcome) : Nat :=
  os.countP fun o => match o with | Outcome.created _ => false | Outcome.skipped _ => true

/-- The loop with a fallible `writeFileSync`: `writeFails` tells which paths
make the write throw an `IOError`.  An uncaught throw inside `forEach` aborts
the whole process, so the error case returns no partial report. -/
def scaffoldE (baseDir : String) (writeFails : String → Bool) (fs : FS) :
    List Problem → Except String (FS × List Outcome)
  | [] => Except.ok (fs, [])
  | p :: ps =>
    let filepath := targetPath baseDir p
    if existsSync fs filepath then
      (scaffoldE baseDir writeFails fs ps).map fun r => (r.1, Outcome.skipped filepath :: r.2)
    else if writeFails filepath then
      Except.error ("IOError: " ++ filepath)
    else
      (scaffoldE baseDir writeFails
          (writeFileSync fs filepath (generateProblemTemplate p)) ps).map
        fun r => (r.1, Outcome.created filepath :: r.2)

/-- `sub` occurs as a contiguous substring of `s`. -/
def occursIn (sub s : String) : Prop :=
  ∃ l r : List Char, s.data = l ++ sub.data ++ r

lemma scaffoldStep_fst (b : String) (fs : FS) (d : Problem) :
    (scaffoldStep b fs d).1 =
      if existsSync fs (targetPath b d) then fs
      else writeFileSync fs (targetPath b d) (generateProblemTemplate d) := by
  unfold scaffoldStep
  by_cases h : existsSync fs (targetPath b d) = true <;> simp [h]

lemma scaffoldStep_snd (b : String) (fs : FS) (d : Problem) :
    (scaffoldStep b fs d).2 =
      if existsSync fs (targetPath b d) then Outcome.skipped (targetPath b d)
      else Outcome.created (targetPath b d) := by
  unfold scaffoldStep
  by_cases h : existsSync fs (targetPath b d) = true <;> simp [h]

lemma scaffold_cons (b : String) (fs : FS) (d : Problem) (ds : List Problem) :
    scaffold b fs (d :: ds) =
      ((scaffold b (scaffoldStep b fs d).1 ds).1,
       (scaffoldStep b fs d).2 :: (scaffold b (scaffoldStep b fs d).1 ds).2) := rfl

lemma scaffoldStep_keep {fs : FS} {p : String} (b : String) (d : Problem)
    (h : (fs p).isSome = true) : (scaffoldStep b fs d).1 p = fs p := by
  rw [scaffoldStep_fst]
  split
  · rfl
  · rename_i hne
    unfold writeFileSync
    by_cases hp : p = targetPath b d
    · subst hp
      exact absurd h (by simpa [existsSync] using hne)
    · simp [hp]

lemma scaffold_keep {fs : FS} {p : String} (b : String) (l : List Problem)
    (h : (fs p).isSome = true) : (scaffold b fs l).1 p = fs p := by
  induction l generalizing fs with
  | nil => rfl
  | cons d ds ih =>
    rw [scaffold_cons]
    have hstep := scaffoldStep_keep b d h
    calc (scaffold b (scaffoldStep b fs d).1 ds).1 p
        = (scaffoldStep b fs d).1 p := ih (by rw [hstep]; exact h)
      _ = fs p := hstep

lemma scaffoldStep_untouched {q : String} (b : String) (fs : FS) (d : Problem)
    (hq : targetPath b d ≠ q) : (scaffoldStep b fs d).1 q = fs q := by
  rw [scaffoldStep_fst]
  split
  · rfl
  · unfold writeFileSync
    rw [if_neg (fun h => hq h.symm)]

lemma scaffold_untouched {q : String} (b : String) (fs : FS) (l : List Problem)
    (h : ∀ d ∈ l, targetPath b d ≠ q) : (scaffold b fs l).1 q = fs q := by
  induction l generalizing fs with
  | nil => rfl
  | cons d ds ih =>
    rw [scaffold_cons]
    calc (scaffold b (scaffoldStep b fs d).1 ds).1 q
        = (scaffoldStep b fs d).1 q := ih _ (fun e he => h e (List.mem_cons_of_mem d he))
      _ = fs q := scaffoldStep_untouched b fs d (h d (List.mem_cons_self d ds))

lemma scaffold_length (b : String) (fs : FS) (l : List Problem) :
    ((scaffold b fs l).2).length = l.length := by
  induction l generalizing fs with
  | nil => rfl
  | cons d ds ih => rw [scaffold_cons]; simp [ih]

lemma scaffold_append (b : String) (fs : FS) (xs ys : List Problem) :
    scaffold b fs (xs ++ ys) =
      ((scaffold b (scaffold b fs xs).1 ys).1,
       (scaffold b fs xs).2 ++ (scaffold b (scaffold b fs xs).1 ys).2) := by
  induction xs generalizing fs with
  | nil => rfl
  | cons d ds ih =>
    rw [List.cons_append, scaffold_cons, scaffold_cons, ih]
    simp

lemma scaffoldStep_of_exists {fs : FS} (b : String) (d : Problem)
    (h : existsSync fs (targetPath b d) = true) :
    scaffoldStep b fs d = (fs, Outcome.skipped (targetPath b d)) := by
  unfold scaffoldStep
  simp [h]

lemma scaffoldStep_target_isSome (b : String) (fs : FS) (d : Problem) :
    (((scaffoldStep b fs d).1) (targetPath b d)).isSome = true := by
  rw [scaffoldStep_fst]
  split
  · rename_i h
    simpa [existsSync] using h
  · simp [writeFileSync]

lemma scaffold_creates_all (b : String) (fs : FS) (l : List Problem) :
    ∀ d ∈ l, (((scaffold b fs l).1) (targetPath b d)).isSome = true := by
  induction l generalizing fs with
  | nil => simp
  | cons d ds ih =>
    intro e he
    rw [scaffold_cons]
    rcases List.mem_cons.mp he with he | he
    · subst he
      have := scaffoldStep_target_isSome b fs e
      rw [scaffold_keep b ds this]
      exact this
    · exact ih _ e he

lemma scaffold_all_exist_skip (b : String) (fs : FS) (l : List Problem)
    (h : ∀ d ∈ l, (fs (targetPath b d)).isSome = true) :
    scaffold b fs l = (fs, l.map fun d => Outcome.skipped (targetPath b d)) := by
  induction l with
  | nil => rfl
  | cons d ds ih =>
    rw [scaffold_cons,
        scaffoldStep_of_exists b d (by simpa [existsSync] using h d (List.mem_cons_self d ds)),
        ih (fun e he => h e (List.mem_cons_of_mem d he))]
    simp

lemma scaffold_skips {fs : FS} {p : String} (b : String) (l : List Problem)
    (h : (fs p).isSome = true) :
    List.Forall₂ (fun d o => targetPath b d = p → o = Outcome.skipped p)
      l (scaffold b fs l).2 := by
  induction l generalizing fs with
  | nil => exact List.Forall₂.nil
  | cons d ds ih =>
    rw [scaffold_cons]
    refine List.Forall₂.cons (fun htp => ?_) (ih (by rw [scaffoldStep_keep b d h]; exact h))
    rw [scaffoldStep_snd, htp, if_pos (by simpa [existsSync] using h)]

lemma scaffold_paths (b : String) (fs : FS) (l : List Problem) :
    List.Forall₂ (fun d o => o.path = targetPath b d) l (scaffold b fs l).2 := by
  induction l generalizing fs with
  | nil => exact List.Forall₂.nil
  | cons d ds ih =>
    rw [scaffold_cons]
    refine List.Forall₂.cons ?_ (ih _)
    rw [scaffoldStep_snd]
    split <;> rfl

lemma scaffold_samedom {fs1 fs2 : FS} (b : String) (l : List Problem)
    (h : ∀ q, (fs1 q).isSome = (fs2 q).isSome) :
    (scaffold b fs1 l).2 = (scaffold b fs2 l).2
      ∧ ∀ q, ((scaffold b fs1 l).1 q).isSome = ((scaffold b fs2 l).1 q).isSome := by
  induction l generalizing fs1 fs2 with
  | nil => exact ⟨rfl, h⟩
  | cons d ds ih =>
    have he : existsSync fs1 (targetPath b d) = existsSync fs2 (targetPath b d) := h _
    have hdom : ∀ q, ((scaffoldStep b fs1 d).1 q).isSome = ((scaffoldStep b fs2 d).1 q).isSome := by
      intro q
      rw [scaffoldStep_fst, scaffoldStep_fst, he]
      split
      · exact h q
      · by_cases hq : q = targetPath b d <;> simp [writeFileSync, hq, h q]
    have hrec := ih hdom
    rw [scaffold_cons, scaffold_cons]
    refine ⟨?_, hrec.2⟩
    rw [scaffoldStep_snd, scaffoldStep_snd, he, hrec.1]

lemma occursIn_self (s : String) : occursIn s s :=
  ⟨[], [], by simp⟩

lemma occursIn_left {m s : String} (h : occursIn m s) (t : String) :
    occursIn m (s ++ t) := by
  obtain ⟨l, r, hs⟩ := h
  exact ⟨l, r ++ t.data, by simp [String.data_append, hs, List.append_assoc]⟩

lemma occursIn_right {m t : String} (h : occursIn m t) (s : String) :
    occursIn m (s ++ t) := by
  obtain ⟨l, r, hs⟩ := h
  exact ⟨s.data ++ l, r, by simp [String.data_append, hs, List.append_assoc]⟩

lemma template_has_position (d : Problem) :
    occursIn ("sidebar_position: " ++ toString d.position) (generateProblemTemplate d) := by
  unfold generateProblemTemplate
  repeat
    first
      | exact occursIn_right (occursIn_self _) _
      | apply occursIn_left

lemma template_has_title (d : Problem) :
    occursIn ("title: \"" ++ d.title ++ "\"") (generateProblemTemplate d) := by
  unfold generateProblemTemplate
  repeat
    first
      | exact occursIn_right (occursIn_self _) _
      | apply occursIn_left

lemma template_has_tags (d : Problem) :
    occursIn ("tags: [" ++ tagsStringOf d ++ "]") (generateProblemTemplate d) := by
  unfold generateProblemTemplate
  repeat
    first
      | exact occursIn_right (occursIn_self _) _
      | apply occursIn_left

lemma template_has_difficulty (d : Problem) :
    occursIn ("> **Difficulty:** " ++ d.difficulty) (generateProblemTemplate d) := by
  unfold generateProblemTemplate
  repeat
    first
      | exact occursIn_right (occursIn_self _) _
      | apply occursIn_left

lemma collapseRuns_all_bad {l : List Char} (h : ∀ c ∈ l, isSlugChar c = false) :
    collapseRuns true l = [] ∧ collapseRuns false l = if l.isEmpty then [] else ['-'] := by
  induction l with
  | nil => exact ⟨rfl, rfl⟩
  | cons c cs ih =>
    have hc : isSlugChar c = false := h c (List.mem_cons_self c cs)
    have ih' := ih (fun e he => h e (List.mem_cons_of_mem c he))
    constructor
    · simp [collapseRuns, hc, ih'.1]
    · simp [collapseRuns, hc, ih'.1]

lemma scaffoldE_no_fail (b : String) (bad : String → Bool) (h : ∀ q, bad q = false)
    (l : List Problem) : ∀ fs : FS, scaffoldE b bad fs l = Except.ok (scaffold b fs l) := by
  induction l with
  | nil => intro fs; rfl
  | cons d ds ih =>
    intro fs
    by_cases he : existsSync fs (targetPath b d) = true
    · simp [scaffoldE, he, ih, scaffold_cons, scaffoldStep_of_exists b d he, Except.map]
    · simp [scaffoldE, he, h, ih, scaffold_cons, scaffoldStep_fst, scaffoldStep_snd, Except.map]

/-- Concrete sample data used by the witnesses below. -/
def emptyFS : FS := fun _ => none

/-- A filesystem already holding hand-edited content at `docs/stack/x.mdx`. -/
def keepFS : FS := fun q => if q = "docs/stack/x.mdx" then some "KEEP ME" else none

/-- Same domain as `keepFS`, different bytes at the occupied path. -/
def keepFS2 : FS := fun q => if q = "docs/stack/x.mdx" then some "OTHER BYTES" else none

/-- A sample descriptor whose slug is `x`. -/
def sampleX : Problem := ⟨"stack", 1, "X", "Medium", ["Stack"]⟩

/-- A second descriptor with the same folder whose title also slugifies to `x`. -/
def sampleX2 : Problem := ⟨"stack", 2, "X!", "Easy", ["String", "String"]⟩

/-- C3: `slugify` agrees, on every title, with the spec's description
(lower-case, collapse each maximal run outside `[a-z0-9]` to one hyphen,
strip leading/trailing hyphens); it is deterministic (equal titles give equal
slugs); and `slugify "N-th Tribonacci Number" = "n-th-tribonacci-number"`. -/
theorem claim_C3_slugify_correct :
    (∀ t : String, slugify t = slugifySpec t)
    ∧ (∀ s t : String, s = t → slugify s = slugify t)
    ∧ slugify "N-th Tribonacci Number" = "n-th-tribonacci-number" := by
  refine ⟨fun t => ?_, fun s t h => by rw [h], by decide⟩
  exact congrArg String.mk (stripEdgesSpec_eq_stripEdges (collapseRuns_chain _ false)).symm

/-- Witness for C3: the refinement and the determinism conjuncts applied at
concrete titles. -/
theorem claim_C3_slugify_correct_witness :
    slugify "  Hello --  World  " = slugifySpec "  Hello --  World  "
    ∧ slugify "Same Title" = slugify "Same Title" :=
  ⟨claim_C3_slugify_correct.1 _, claim_C3_slugify_correct.2.1 _ _ rfl⟩

/-- C10: `generateProblemTemplate` is a pure function of the descriptor's
`position`, `title`, `difficulty` and `tags` fields only — two descriptors
equal on those four fields render byte-identical documents, independently of
`folder` and of any filesystem state. -/
theorem claim_C10_template_pure (d1 d2 : Problem)
    (hpos : d1.position = d2.position) (htitle : d1.title = d2.title)
    (hdiff : d1.difficulty = d2.difficulty) (htags : d1.tags = d2.tags) :
    generateProblemTemplate d1 = generateProblemTemplate d2 := by
  unfold generateProblemTemplate tagsStringOf
  rw [hpos, htitle, hdiff, htags]

/-- Witness for C10: two descriptors differing only in `folder` render the
same document. -/
theorem claim_C10_template_pure_witness :
    generateProblemTemplate ⟨"stack", 1, "Removing Stars From a String", "Medium", ["String"]⟩
      = generateProblemTemplate ⟨"queue", 1, "Removing Stars From a String", "Medium", ["String"]⟩ :=
  claim_C10_template_pure _ _ rfl rfl rfl rfl

/-- C1: non-destructive skip — a pre-existing file's bytes survive any run
unchanged; every descriptor targeting that path gets a `skipped` outcome; and
the outcomes depend on the filesystem only through existence (swapping in any
filesystem with the same occupied paths leaves the report unchanged, so the
existing content is never read or compared). -/
theorem claim_C1_nondestructive (b : String) (fs fs2 : FS) (l : List Problem)
    (p c : String) (h : fs p = some c) (hdom : ∀ q, (fs q).isSome = (fs2 q).isSome) :
    (scaffold b fs l).1 p = some c
    ∧ List.Forall₂ (fun d o => targetPath b d = p → o = Outcome.skipped p) l (scaffold b fs l).2
    ∧ (scaffold b fs l).2 = (scaffold b fs2 l).2 := by
  refine ⟨?_, scaffold_skips b l (by simp [h]), (scaffold_samedom b l hdom).1⟩
  rw [scaffold_keep b l (by simp [h])]
  exact h

/-- Witness for C1: a file with arbitrary bytes at `docs/stack/x.mdx`
survives a run over a descriptor targeting exactly that path, and the report
is the same against a same-domain filesystem with different bytes. -/
theorem claim_C1_nondestructive_witness :
    keepFS "docs/stack/x.mdx" = some "KEEP ME"
    ∧ (scaffold "docs" keepFS [sampleX]).1 "docs/stack/x.mdx" = some "KEEP ME"
    ∧ (scaffold "docs" keepFS [sampleX]).2 = (scaffold "docs" keepFS2 [sampleX]).2 := by
  have hdom : ∀ q, (keepFS q).isSome = (keepFS2 q).isSome := by
    intro q
    unfold keepFS keepFS2
    by_cases hq : q = "docs/stack/x.mdx" <;> simp [hq]
  have h := claim_C1_nondestructive "docs" keepFS keepFS2 [sampleX] "docs/stack/x.mdx" "KEEP ME"
    (by simp [keepFS]) hdom
  exact ⟨by simp [keepFS], h.1, h.2.2⟩

/-- C2: idempotence — running the scaffolder a second time over the
filesystem produced by the first run changes nothing and reports every
descriptor as skipped. -/
theorem claim_C2_idempotent (b : String) (fs : FS) (l : List Problem) :
    scaffold b ((scaffold b fs l).1) l
      = ((scaffold b fs l).1, l.map fun d => Outcome.skipped (targetPath b d)) :=
  scaffold_all_exist_skip b _ l (scaffold_creates_all b fs l)

/-- C4: for a descriptor whose target path does not exist, the step emits a
`created` outcome, writes exactly one file (the target gets the rendered
template, every other path is untouched), and the rendered text contains the
descriptor's position as `sidebar_position`, its title, its difficulty, and
its tags serialized in insertion order without deduplication
(`tagsStringOf` is the order-preserving, duplicate-keeping join). -/
theorem claim_C4_one_output (b : String) (fs : FS) (d : Problem)
    (h : existsSync fs (targetPath b d) = false) :
    (scaffoldStep b fs d).2 = Outcome.created (targetPath b d)
    ∧ (scaffoldStep b fs d).1 (targetPath b d) = some (generateProblemTemplate d)
    ∧ (∀ q, q ≠ targetPath b d → (scaffoldStep b fs d).1 q = fs q)
    ∧ occursIn ("sidebar_position: " ++ toString d.position) (generateProblemTemplate d)
    ∧ occursIn ("title: \"" ++ d.title ++ "\"") (generateProblemTemplate d)
    ∧ occursIn ("> **Difficulty:** " ++ d.difficulty) (generateProblemTemplate d)
    ∧ occursIn ("tags: [" ++ tagsStringOf d ++ "]") (generateProblemTemplate d) := by
  refine ⟨?_, ?_, ?_, template_has_position d, template_has_title d,
    template_has_difficulty d, template_has_tags d⟩
  · rw [scaffoldStep_snd, if_neg (by simp [h])]
  · rw [scaffoldStep_fst, if_neg (by simp [h])]
    simp [writeFileSync]
  · intro q hq
    exact scaffoldStep_untouched b fs d (Ne.symm hq)

/-- Witness for C4: a fresh descriptor against the empty filesystem is
created and its rendering carries `sidebar_position`. -/
theorem claim_C4_one_output_witness :
    existsSync emptyFS (targetPath "docs" sampleX) = false
    ∧ (scaffoldStep "docs" emptyFS sampleX).2 = Outcome.created (targetPath "docs" sampleX)
    ∧ occursIn ("sidebar_position: " ++ toString sampleX.position)
        (generateProblemTemplate sampleX) :=
  ⟨rfl, (claim_C4_one_output "docs" emptyFS sampleX rfl).1,
    (claim_C4_one_output "docs" emptyFS sampleX rfl).2.2.2.1⟩

/-- C5: error policy — an already-existing target is never an error (the
step becomes a skip and processing continues with the rest of the list),
while the first failing write aborts the whole run: the result is just the
error, no later descriptor is processed and no `failed` outcome exists; with
no failing writes `scaffoldE` coincides with `scaffold`. -/
theorem claim_C5_error_policy (b : String) (bad : String → Bool) (fs : FS)
    (d : Problem) (ps : List Problem) :
    (existsSync fs (targetPath b d) = true →
      scaffoldE b bad fs (d :: ps)
        = (scaffoldE b bad fs ps).map fun r => (r.1, Outcome.skipped (targetPath b d) :: r.2))
    ∧ (existsSync fs (targetPath b d) = false → bad (targetPath b d) = true →
      scaffoldE b bad fs (d :: ps) = Except.error ("IOError: " ++ targetPath b d))
    ∧ ((∀ q, bad q = false) →
      scaffoldE b bad fs (d :: ps) = Except.ok (scaffold b fs (d :: ps))) := by
  refine ⟨fun he => ?_, fun he hb => ?_, fun hq => scaffoldE_no_fail b bad hq _ fs⟩
  · simp [scaffoldE, he]
  · simp [scaffoldE, he, hb]

/-- Witness for C5: with every write failing, a single fresh descriptor
aborts the run with an `IOError` and no outcome list. -/
theorem claim_C5_error_policy_witness :
    existsSync emptyFS (targetPath "docs" sampleX) = false
    ∧ scaffoldE "docs" (fun _ => true) emptyFS [sampleX]
        = Except.error ("IOError: " ++ targetPath "docs" sampleX) :=
  ⟨rfl, (claim_C5_error_policy "docs" (fun _ => true) emptyFS sampleX []).2.1 rfl rfl⟩

/-- C6: output path layout — the target path is
`join(baseDir, category, slug + ".mdx")`, and every outcome of a run carries
a path of exactly that shape for its descriptor. -/
theorem claim_C6_layout (b : String) (fs : FS) (l : List Problem) (d : Problem) :
    targetPath b d = joinPath (joinPath b d.folder) (slugify d.title ++ ".mdx")
    ∧ List.Forall₂
        (fun e o => Outcome.path o = joinPath (joinPath b e.folder) (slugify e.title ++ ".mdx"))
        l (scaffold b fs l).2 := by
  refine ⟨rfl, (scaffold_paths b fs l).imp fun e o ho => ?_⟩
  rw [ho]
  rfl

/-- C7 as stated is false: the summary line printed at the end is a constant
string and carries no counts — two runs with different created/skipped
counts end with the identical summary line. -/
theorem claim_C7_report_counterexample :
    createdCount (scaffold "docs" emptyFS [sampleX]).2
        ≠ createdCount (scaffold "docs" keepFS [sampleX]).2
    ∧ skippedCount (scaffold "docs" emptyFS [sampleX]).2
        ≠ skippedCount (scaffold "docs" keepFS [sampleX]).2
    ∧ (runLog "docs" emptyFS [sampleX]).getLast? = (runLog "docs" keepFS [sampleX]).getLast? := by
  decide

/-- C7 (amended): the run produces one outcome per descriptor, in input
order, each carrying its descriptor's target path; standard output is one
log line per descriptor followed by a fixed summary line that carries no
counts. -/
theorem claim_C7_report_shape (b : String) (fs : FS) (l : List Problem) :
    List.Forall₂ (fun d o => Outcome.path o = targetPath b d) l (scaffold b fs l).2
    ∧ runLog b fs l = ((scaffold b fs l).2.map logLine) ++ [finalMessage]
    ∧ (runLog b fs l).length = l.length + 1
    ∧ (runLog b fs l).getLast? = some finalMessage := by
  refine ⟨scaffold_paths b fs l, rfl, ?_, ?_⟩
  · simp [runLog, scaffold_length]
  · simp [runLog]

/-- C8: same-run slug collision — if the target path of descriptor `d` is
initially absent and no earlier descriptor targets it, then after the run
the file holds `d`'s rendered content, the report contains `created` exactly
at `d`'s place, and every later descriptor with the same target is reported
as skipped (its own rendering never reaches the disk). -/
theorem claim_C8_collision (b : String) (fs : FS) (l1 l2 : List Problem) (d : Problem)
    (h0 : fs (targetPath b d) = none)
    (h1 : ∀ e ∈ l1, targetPath b e ≠ targetPath b d) :
    (scaffold b fs (l1 ++ d :: l2)).1 (targetPath b d) = some (generateProblemTemplate d)
    ∧ ∃ os1 os2 : List Outcome,
        (scaffold b fs (l1 ++ d :: l2)).2 = os1 ++ Outcome.created (targetPath b d) :: os2
        ∧ os1.length = l1.length
        ∧ List.Forall₂
            (fun e o => targetPath b e = targetPath b d → o = Outcome.skipped (targetPath b d))
            l2 os2 := by
  have hfs1 : (scaffold b fs l1).1 (targetPath b d) = none := by
    rw [scaffold_untouched b fs l1 h1]
    exact h0
  have hstep2 : (scaffoldStep b (scaffold b fs l1).1 d).2 = Outcome.created (targetPath b d) := by
    rw [scaffoldStep_snd, if_neg (by simp [existsSync, hfs1])]
  have hstep1 : (scaffoldStep b (scaffold b fs l1).1 d).1 (targetPath b d)
      = some (generateProblemTemplate d) := by
    rw [scaffoldStep_fst, if_neg (by simp [existsSync, hfs1])]
    simp [writeFileSync]
  have happ := scaffold_append b fs l1 (d :: l2)
  constructor
  · rw [happ]
    show (scaffold b (scaffold b fs l1).1 (d :: l2)).1 (targetPath b d) = _
    rw [scaffold_cons]
    show (scaffold b (scaffoldStep b (scaffold b fs l1).1 d).1 l2).1 (targetPath b d) = _
    rw [scaffold_keep b l2 (by simp [hstep1])]
    exact hstep1
  · refine ⟨(scaffold b fs l1).2, (scaffold b (scaffoldStep b (scaffold b fs l1).1 d).1 l2).2,
      ?_, scaffold_length b fs l1, scaffold_skips b l2 (by simp [hstep1])⟩
    rw [happ]
    show (scaffold b fs l1).2 ++ (scaffold b (scaffold b fs l1).1 (d :: l2)).2 = _
    rw [scaffold_cons]
    show (scaffold b fs l1).2
        ++ (scaffoldStep b (scaffold b fs l1).1 d).2
          :: (scaffold b (scaffoldStep b (scaffold b fs l1).1 d).1 l2).2 = _
    rw [hstep2]

/-- Witness for C8: `"X"` and `"X!"` both slugify to `x`; against the empty
filesystem the first is created and the file holds its rendering. -/
theorem claim_C8_collision_witness :
    emptyFS (targetPath "docs" sampleX) = none
    ∧ (scaffold "docs" emptyFS ([] ++ sampleX :: [sampleX2])).1 (targetPath "docs" sampleX)
        = some (generateProblemTemplate sampleX)
    ∧ targetPath "docs" sampleX2 = targetPath "docs" sampleX :=
  ⟨rfl, (claim_C8_collision "docs" emptyFS [] [sampleX2] sampleX rfl (by simp)).1, by decide⟩

/-- A sample descriptor whose title has no alphanumeric character at all. -/
def sampleBang : Problem := ⟨"misc", 1, "!!!", "Easy", []⟩

/-- C9: empty-slug edge case — a title with no `[a-z0-9]` character after
lower-casing slugifies to the empty string, so the descriptor targets the
file literally named `.mdx` inside the category directory, and (path absent)
it is created rather than skipped or rejected. -/
theorem claim_C9_empty_slug (b : String) (fs : FS) (d : Problem)
    (h : ∀ c ∈ d.title.data, isSlugChar (Char.toLower c) = false)
    (habs : existsSync fs (targetPath b d) = false) :
    slugify d.title = ""
    ∧ targetPath b d = joinPath (joinPath b d.folder) ".mdx"
    ∧ (scaffoldStep b fs d).2 = Outcome.created (targetPath b d) := by
  have hmap : ∀ c ∈ d.title.data.map Char.toLower, isSlugChar c = false := by
    intro c hc
    obtain ⟨a, ha, rfl⟩ := List.mem_map.mp hc
    exact h a ha
  have hslug : slugify d.title = "" := by
    unfold slugify
    rw [(collapseRuns_all_bad hmap).2]
    split <;> decide
  refine ⟨hslug, ?_, ?_⟩
  · show joinPath (joinPath b d.folder) (slugify d.title ++ ".mdx")
        = joinPath (joinPath b d.folder) ".mdx"
    rw [hslug, String.empty_append]
  · rw [scaffoldStep_snd, if_neg (by simp [habs])]

/-- Witness for C9: the all-punctuation title `"!!!"`. -/
theorem claim_C9_empty_slug_witness :
    (∀ c ∈ ("!!!" : String).data, isSlugChar (Char.toLower c) = false)
    ∧ slugify "!!!" = ""
    ∧ targetPath "docs" sampleBang = joinPath (joinPath "docs" "misc") ".mdx"
    ∧ (scaffoldStep "docs" emptyFS sampleBang).2
        = Outcome.created (targetPath "docs" sampleBang) := by
  have h := claim_C9_empty_slug "docs" emptyFS sampleBang (by decide) rfl
  exact ⟨by decide, h.1, h.2.1, h.2.2⟩
